import Mathlib

/-!
Verification of the dashboard data-access layer (`src/app/lib/data.ts`).

The layer exposes eight query functions over three relations (invoices,
customers, revenue).  Four functions reach the store through a table client
returning `{data, error}` pairs (modelled by `Outcome`/`respond`); four reach
it through a raw SQL client that throws on failure (modelled by an
`Option String` failure parameter).  Each function catches every failure at
its own boundary and rethrows a fixed generic message.

Machine integers are modelled as `Int`/`Nat`; the JavaScript division
`amount / 100` (exact for display purposes) is modelled in `ℚ`.
-/

/-- Decimal digits of `n`, least significant first; `fuel ≥ n` guarantees
termination structurally. -/
def natDigitsRev (fuel n : Nat) : List Char :=
  match fuel with
  | 0 => []
  | fuel + 1 =>
    let d := Char.ofNat (48 + n % 10)
    if n < 10 then [d] else d :: natDigitsRev fuel (n / 10)

/-- Decimal representation of a natural number, most significant digit first. -/
def natToChars (n : Nat) : List Char := (natDigitsRev (n + 1) n).reverse

/-- Decimal representation of an integer (model of the SQL cast `amount::text`). -/
def intToChars (i : Int) : List Char :=
  if i < 0 then '-' :: natToChars (-i).toNat else natToChars i.toNat

/-- ASCII lower-casing of one character (model of the case folding done by
`ILIKE` and by the table client's `ilike` operator). -/
def lowerChar (c : Char) : Char :=
  if 65 ≤ c.toNat ∧ c.toNat ≤ 90 then Char.ofNat (c.toNat + 32) else c

/-- Whether the first list is a leading segment of the second. -/
def isPrefOf : List Char → List Char → Bool
  | [], _ => true
  | _ :: _, [] => false
  | a :: as, b :: bs => a == b && isPrefOf as bs

/-- Whether `pat` occurs contiguously inside the second list. -/
def containsSub (pat : List Char) : List Char → Bool
  | [] => pat.isEmpty
  | s@(_ :: rest) => isPrefOf pat s || containsSub pat rest

/-- Case-insensitive containment: the semantics of `field ILIKE '%pat%'`. -/
def iContains (s pat : List Char) : Bool :=
  containsSub (pat.map lowerChar) (s.map lowerChar)

/-- Comma grouping of a digit list given least significant digit first. -/
def commaRev : List Char → List Char
  | [] => []
  | [a] => [a]
  | [a, b] => [a, b]
  | [a, b, c] => [a, b, c]
  | a :: b :: c :: rest => a :: b :: c :: ',' :: commaRev rest

/-- Thousands-grouped decimal representation of a natural number. -/
def formatNatComma (n : Nat) : String :=
  String.mk ((commaRev (natToChars n).reverse).reverse)

/-- Two-digit cents field. -/
def padCents (c : Nat) : String :=
  if c < 10 then String.mk ('0' :: natToChars c) else String.mk (natToChars c)

/-- Modelled from the spec: the `formatCurrency` helper of `src/app/lib/utils.ts`
is not part of the given sources; the spec describes it as "a pure function
converting an integer-cents amount to a localized currency display string"
(en-US dollars), with `formatCurrency 100000 = "$1,000.00"`,
`formatCurrency 50000 = "$500.00"` and `formatCurrency 0 = "$0.00"`. -/
def formatCurrency (cents : Int) : String :=
  if cents < 0 then
    "-$" ++ formatNatComma ((-cents).toNat / 100) ++ "." ++ padCents ((-cents).toNat % 100)
  else
    "$" ++ formatNatComma (cents.toNat / 100) ++ "." ++ padCents (cents.toNat % 100)

/-- Row of the `invoices` relation: `invoices(id, customer_id, amount:int cents,
status, date)`. -/
structure Invoice where
  id : String
  customer_id : String
  amount : Int
  status : String
  date : String
deriving DecidableEq

/-- Row of the `customers` relation: `customers(id, name, email, image_url)`. -/
structure Customer where
  id : String
  name : String
  email : String
  image_url : String
deriving DecidableEq

/-- Row of the `revenue` relation: `revenue(month, revenue)`. -/
structure RevenueRow where
  month : String
  revenue : Int
deriving DecidableEq

/-- Backend state: the contents of the three relations. -/
structure Store where
  invoices : List Invoice
  customers : List Customer
  revenue : List RevenueRow
deriving DecidableEq

/-- Outcome of one round trip through the table client: a structured error,
a successful reply whose `data` is absent (`null`), or a successful reply
carrying the rows computed from the store. -/
inductive Outcome where
  | err (msg : String)
  | nullData
  | ok
deriving DecidableEq

/-- The `{error, data}` pair produced by the table client for one query whose
successful result would be `rows`. -/
def respond {α : Type} (o : Outcome) (rows : α) : Option String × Option α :=
  match o with
  | .err m => (some m, none)
  | .nullData => (none, none)
  | .ok => (none, some rows)

/-- Byte-wise lexicographic comparison of character lists. -/
def charListLt : List Char → List Char → Bool
  | _, [] => false
  | [], _ :: _ => true
  | a :: as, b :: bs =>
    if a.toNat < b.toNat then true
    else if b.toNat < a.toNat then false
    else charListLt as bs

/-- String comparison used for `order by` clauses. -/
def strLt (a b : String) : Bool := charListLt a.toList b.toList

/-- Insert an invoice into a date-descending list, keeping it sorted. -/
def insertDesc (inv : Invoice) : List Invoice → List Invoice
  | [] => [inv]
  | x :: xs => if strLt x.date inv.date then inv :: x :: xs else x :: insertDesc inv xs

/-- Model of `.order('date', { ascending: false })`. -/
def sortByDateDesc : List Invoice → List Invoice
  | [] => []
  | x :: xs => insertDesc x (sortByDateDesc xs)

/-- Insert a customer into a name-ascending list, keeping it sorted. -/
def insertCustAsc (c : Customer) : List Customer → List Customer
  | [] => [c]
  | x :: xs => if strLt c.name x.name then c :: x :: xs else x :: insertCustAsc c xs

/-- Model of `ORDER BY name ASC` over customers. -/
def sortByNameAsc : List Customer → List Customer
  | [] => []
  | x :: xs => insertCustAsc x (sortByNameAsc xs)

/-- Source `fetchRevenue` (data.ts:15-37): selects `month, revenue`; throws on a
client error or on absent data, and the boundary `catch` rethrows the generic
message in both cases. -/
def fetchRevenue (st : Store) (o : Outcome) : Except String (List RevenueRow) :=
  match respond o st.revenue with
  | (some _, _) => .error "Failed to fetch revenue data."
  | (none, none) => .error "Failed to fetch revenue data."
  | (none, some data) => .ok data

/-- Shape of one row returned by `fetchLatestInvoices`: the invoice joined in
memory with its customer; the customer fields are `undefined` (here `none`)
when the id is absent from the follow-up customer fetch. -/
structure LatestInvoice where
  id : String
  amount : String
  name : Option String
  email : Option String
  image_url : Option String
deriving DecidableEq

/-- In-memory join of one invoice with the fetched customers
(data.ts:72-81): `customers.find(...)` followed by optional chaining. -/
def latestInvoiceOfRow (customers : List Customer) (invoice : Invoice) : LatestInvoice :=
  let customer := customers.find? (fun c => c.id == invoice.customer_id)
  { id := invoice.id
    amount := formatCurrency invoice.amount
    name := customer.map Customer.name
    email := customer.map Customer.email
    image_url := customer.map Customer.image_url }

/-- Source `fetchLatestInvoices` (data.ts:39-88): fetches the 5 most recent
invoices (date descending), returns `[]` when data is absent or empty,
fetches the referenced customers, and joins in memory.  A `null` customer
list with no error makes `customers.find` throw, which the boundary catch
turns into the generic message. -/
def fetchLatestInvoices (st : Store) (o1 o2 : Outcome) : Except String (List LatestInvoice) :=
  match respond o1 ((sortByDateDesc st.invoices).take 5) with
  | (some _, _) => .error "Failed to fetch the latest invoices."
  | (none, none) => .ok []
  | (none, some data) =>
    if data.length == 0 then .ok []
    else
      let customerIds := data.map Invoice.customer_id
      match respond o2 (st.customers.filter (fun c => customerIds.contains c.id)) with
      | (some _, _) => .error "Failed to fetch the latest invoices."
      | (none, none) => .error "Failed to fetch the latest invoices."
      | (none, some customers) => .ok (data.map (latestInvoiceOfRow customers))

/-- Result record of `fetchCardData`. -/
structure CardData where
  numberOfCustomers : Nat
  numberOfInvoices : Nat
  totalPaidInvoices : String
  totalPendingInvoices : String
deriving DecidableEq

/-- The `.filter(status === s).reduce((sum, curr) => sum + curr.amount, 0)`
aggregation used by `fetchCardData` (data.ts:109-114). -/
def statusSum (l : List Invoice) (stat : String) : Int :=
  (l.filter (fun invoice => invoice.status == stat)).foldl (fun sum curr => sum + curr.amount) 0

/-- Source `fetchCardData` (data.ts:91-126): three table-client queries
(all invoices, all customers, the `status, amount` projection — the last is
fetched but never read); any structured error becomes the generic message;
absent data sets default counts and sums to `0` via `?.`/`?? 0`. -/
def fetchCardData (st : Store) (o1 o2 o3 : Outcome) : Except String CardData :=
  match respond o1 st.invoices, respond o2 st.customers,
        respond o3 (st.invoices.map (fun i => (i.status, i.amount))) with
  | (some _, _), _, _ => .error "Failed to fetch card data."
  | (none, _), (some _, _), _ => .error "Failed to fetch card data."
  | (none, _), (none, _), (some _, _) => .error "Failed to fetch card data."
  | (none, invoiceData), (none, customerCountData), (none, _) =>
    let numberOfInvoices := (invoiceData.map List.length).getD 0
    let numberOfCustomers := (customerCountData.map List.length).getD 0
    let totalPaidInvoices := formatCurrency ((invoiceData.map (fun d => statusSum d "paid")).getD 0)
    let totalPendingInvoices :=
      formatCurrency ((invoiceData.map (fun d => statusSum d "pending")).getD 0)
    .ok { numberOfCustomers, numberOfInvoices, totalPaidInvoices, totalPendingInvoices }

/-- Page size shared by the filtered-invoices and page-count queries
(data.ts:129). -/
def ITEMS_PER_PAGE : Nat := 6

/-- Customer fields embedded in a filtered-invoices row by the nested select
`customers ( name, email, image_url )`. -/
structure NestedCustomer where
  name : String
  email : String
  image_url : String
deriving DecidableEq

/-- Row returned by `fetchFilteredInvoices`: the selected invoice columns with
the embedded customer (absent when the referenced customer does not exist). -/
structure FilteredInvoiceRow where
  id : String
  amount : Int
  date : String
  status : String
  customers : Option NestedCustomer
deriving DecidableEq

/-- Builds one filtered-invoices row from the store (the nested select
resolves `customer_id` against the customers relation). -/
def filteredInvoiceRow (st : Store) (invoice : Invoice) : FilteredInvoiceRow :=
  let c := st.customers.find? (fun cu => cu.id == invoice.customer_id)
  { id := invoice.id
    amount := invoice.amount
    date := invoice.date
    status := invoice.status
    customers := c.map (fun cu =>
      { name := cu.name, email := cu.email, image_url := cu.image_url }) }

/-- The OR-combined `ilike` filter built by `fetchFilteredInvoices`
(data.ts:137-145): customer name, customer email, amount as text, date as
text, status. -/
def rowMatches (query : String) (r : FilteredInvoiceRow) : Bool :=
  iContains (match r.customers with | some c => c.name.toList | none => []) query.toList
  || iContains (match r.customers with | some c => c.email.toList | none => []) query.toList
  || iContains (intToChars r.amount) query.toList
  || iContains r.date.toList query.toList
  || iContains r.status.toList query.toList

/-- Source `fetchFilteredInvoices` (data.ts:130-182): orders by date
descending, slices `range(offset, offset + ITEMS_PER_PAGE - 1)` with
`offset = (currentPage - 1) * ITEMS_PER_PAGE`, and applies the OR filter only
when the query string is non-empty (`query ? ... : null`).  The raw `data`
(possibly `null`) is returned unchanged; a client error becomes the generic
message. -/
def fetchFilteredInvoices (st : Store) (query : String) (currentPage : Nat) (o : Outcome) :
    Except String (Option (List FilteredInvoiceRow)) :=
  let offset := (currentPage - 1) * ITEMS_PER_PAGE
  let base := (sortByDateDesc st.invoices).map (filteredInvoiceRow st)
  let rows := if query == "" then base else base.filter (rowMatches query)
  let paged := (rows.drop offset).take ITEMS_PER_PAGE
  match respond o paged with
  | (some _, _) => .error "Failed to fetch invoices."
  | (none, d) => .ok d

/-- The `WHERE ... ILIKE ... OR ...` predicate of the SQL count query
(data.ts:186-194), evaluated on one joined invoice/customer pair. -/
def invoiceCustomerMatches (query : String) (invoice : Invoice) (customer : Customer) : Bool :=
  iContains customer.name.toList query.toList
  || iContains customer.email.toList query.toList
  || iContains (intToChars invoice.amount) query.toList
  || iContains invoice.date.toList query.toList
  || iContains invoice.status.toList query.toList

/-- The `invoices JOIN customers ON invoices.customer_id = customers.id`
row set. -/
def joinRows (st : Store) : List (Invoice × Customer) :=
  st.invoices.flatMap (fun invoice =>
    (st.customers.filter (fun c => c.id == invoice.customer_id)).map (fun c => (invoice, c)))

/-- The `COUNT(*)` computed by the page-count query. -/
def matchingRowCount (st : Store) (query : String) : Nat :=
  ((joinRows st).filter (fun p => invoiceCustomerMatches query p.1 p.2)).length

/-- Source `fetchInvoicesPages` (data.ts:184-202):
`Math.ceil(count / ITEMS_PER_PAGE)`; an SQL failure becomes the generic
message. -/
def fetchInvoicesPages (st : Store) (query : String) (o : Option String) : Except String Nat :=
  match o with
  | some _ => .error "Failed to fetch total number of invoices."
  | none => .ok (⌈(matchingRowCount st query : ℚ) / (ITEMS_PER_PAGE : ℚ)⌉.toNat)

/-- Row returned by `fetchInvoiceById`; `amount` is the stored cents divided
by 100 (plain number, no currency formatting). -/
structure InvoiceForm where
  id : String
  customer_id : String
  amount : ℚ
  status : String
deriving DecidableEq

/-- The per-row conversion of `fetchInvoiceById` (data.ts:216-220). -/
def invoiceFormOfRow (invoice : Invoice) : InvoiceForm :=
  { id := invoice.id
    customer_id := invoice.customer_id
    amount := (invoice.amount : ℚ) / 100
    status := invoice.status }

/-- Source `fetchInvoiceById` (data.ts:204-228): selects the rows with the
given id, divides each amount by 100, and returns the first element —
`undefined` (here `none`) when no row matches. -/
def fetchInvoiceById (st : Store) (idv : String) (o : Option String) :
    Except String (Option InvoiceForm) :=
  match o with
  | some _ => .error "Failed to fetch invoice."
  | none =>
    let rows := st.invoices.filter (fun invoice => invoice.id == idv)
    let invoice := rows.map invoiceFormOfRow
    .ok invoice.head?

/-- Row returned by `fetchCustomers`: the `{id, name}` projection. -/
structure CustomerField where
  id : String
  name : String
deriving DecidableEq

/-- Source `fetchCustomers` (data.ts:230-245): all customers projected to
`id, name`, ordered by name ascending. -/
def fetchCustomers (st : Store) (o : Option String) : Except String (List CustomerField) :=
  match o with
  | some _ => .error "Failed to fetch all customers."
  | none => .ok ((sortByNameAsc st.customers).map (fun c => { id := c.id, name := c.name }))

/-- Row returned by `fetchFilteredCustomers`: customer fields with the grouped
aggregates, pending/paid sums currency-formatted. -/
structure CustomersTableRow where
  id : String
  name : String
  email : String
  image_url : String
  total_invoices : Nat
  total_pending : String
  total_paid : String
deriving DecidableEq

/-- One grouped row of the filtered-customers query: `COUNT(invoices.id)` and
the two conditional sums over the customer's invoices (left join), followed by
the in-memory currency formatting (data.ts:266-271). -/
def customerTableRow (st : Store) (c : Customer) : CustomersTableRow :=
  let invs := st.invoices.filter (fun invoice => invoice.customer_id == c.id)
  { id := c.id
    name := c.name
    email := c.email
    image_url := c.image_url
    total_invoices := invs.length
    total_pending := formatCurrency (statusSum invs "pending")
    total_paid := formatCurrency (statusSum invs "paid") }

/-- The `name ILIKE ... OR email ILIKE ...` filter of the customers queries. -/
def customerMatches (query : String) (c : Customer) : Bool :=
  iContains c.name.toList query.toList || iContains c.email.toList query.toList

/-- Source `fetchFilteredCustomers` (data.ts:247-280): filters customers by
name/email, left-joins and groups their invoices, orders by name ascending,
and currency-formats the two sums. -/
def fetchFilteredCustomers (st : Store) (query : String) (o : Option String) :
    Except String (List CustomersTableRow) :=
  match o with
  | some _ => .error "Failed to fetch customer table."
  | none => .ok ((sortByNameAsc (st.customers.filter (customerMatches query))).map
      (customerTableRow st))

/-- Backend events: issuing the n-th query and completing its round trip. -/
inductive QueryEv where
  | issue (n : Nat)
  | complete (n : Nat)
deriving BEq, DecidableEq

/-- Event trace of the backend operations performed by `fetchCardData`
(data.ts:96-104): each of its three statements is `const {..} = await
supabase...`, so each statement issues its query and suspends the function
until that query's round trip completes before the next statement (and hence
the next issue) runs.  No two queries are ever in flight together. -/
def fetchCardDataTrace : List QueryEv :=
  [.issue 1, .complete 1, .issue 2, .complete 2, .issue 3, .complete 3]

/-- Spec-side definition for the refinement claim about empty-query filtering:
"an unfiltered fetch" of invoices with nested customer fields, "ordered by
date descending, sliced to the requested page" of 6 rows at offset
`(page-1)*6`. -/
def unfilteredInvoicePage (st : Store) (currentPage : Nat) : List FilteredInvoiceRow :=
  ((((sortByDateDesc st.invoices).map (filteredInvoiceRow st)).drop
      ((currentPage - 1) * 6)).take 6)

/-- Membership is preserved by sorted insertion. -/
theorem mem_insertDesc {x a : Invoice} {l : List Invoice} :
    x ∈ insertDesc a l ↔ x = a ∨ x ∈ l := by
  induction l with
  | nil => simp [insertDesc]
  | cons y ys ih =>
    by_cases h : strLt y.date a.date = true
    · simp [insertDesc, h]
    · simp only [insertDesc, if_neg h, List.mem_cons, ih]
      tauto

/-- Sorting by date is a permutation as far as membership is concerned. -/
theorem mem_sortByDateDesc {x : Invoice} {l : List Invoice} :
    x ∈ sortByDateDesc l ↔ x ∈ l := by
  induction l with
  | nil => simp [sortByDateDesc]
  | cons y ys ih => simp [sortByDateDesc, mem_insertDesc, ih]

/-- The head of a filtered list is the first element satisfying the predicate. -/
theorem head?_filter_eq_find? (p : Invoice → Bool) (l : List Invoice) :
    (l.filter p).head? = l.find? p := by
  induction l with
  | nil => rfl
  | cons y ys ih =>
    cases h : p y
    · rw [List.find?_cons_of_neg _ (by simp [h])]
      simp [List.filter_cons, h, ih]
    · rw [List.find?_cons_of_pos _ h]
      simp [List.filter_cons, h]

/-- Folding addition of amounts starting from `a` adds the total of the list. -/
theorem foldl_amount_eq (l : List Invoice) (a : Int) :
    l.foldl (fun sum curr => sum + curr.amount) a = a + (l.map Invoice.amount).sum := by
  induction l generalizing a with
  | nil => simp
  | cons y ys ih => simp [List.foldl_cons, ih, add_assoc]

/-- The paid and pending sums together are exactly the amount total over the
invoices whose status is paid or pending. -/
theorem statusSum_paid_add_pending (l : List Invoice) :
    statusSum l "paid" + statusSum l "pending"
      = (l.filter (fun i => i.status == "paid" || i.status == "pending")).foldl
          (fun sum curr => sum + curr.amount) 0 := by
  simp only [statusSum, foldl_amount_eq, zero_add]
  induction l with
  | nil => simp
  | cons y ys ih =>
    by_cases hp : y.status = "paid"
    · have h2 : (y.status == "pending") = false := by simp [hp]
      simp only [List.filter_cons, hp, h2]
      simp only [List.filter_cons] at ih
      simp
      linarith [ih]
    · by_cases hq : y.status = "pending"
      · have h1 : (y.status == "paid") = false := by simp [hp]
        simp only [List.filter_cons, hq, h1]
        simp
        linarith [ih]
      · have h1 : (y.status == "paid") = false := by simp [hp]
        have h2 : (y.status == "pending") = false := by simp [hq]
        simp [List.filter_cons, h1, h2, ih]

/-- Ceiling of `c / 6` over the rationals, computed by natural division. -/
theorem ceil_div_six (c : Nat) : ⌈(c : ℚ) / 6⌉ = ((c + 5) / 6 : ℕ) := by
  rw [Int.ceil_eq_iff]
  have h1 : ((c + 5) / 6 : ℕ) * 6 < c + 6 := by omega
  have h2 : c ≤ ((c + 5) / 6 : ℕ) * 6 := by omega
  constructor
  · rw [sub_lt_iff_lt_add,
      show ((c : ℚ) / 6 + 1 : ℚ) = ((c : ℚ) + 6) / 6 by ring,
      lt_div_iff₀ (by norm_num : (0 : ℚ) < 6)]
    exact_mod_cast h1
  · rw [div_le_iff₀ (by norm_num : (0 : ℚ) < 6)]
    exact_mod_cast h2

/-- Behaviour of `fetchInvoiceById` on a non-failing query: the first invoice
matching the id, converted by `invoiceFormOfRow`. -/
theorem fetchInvoiceById_eq_find (st : Store) (idv : String) :
    fetchInvoiceById st idv none
      = .ok ((st.invoices.find? (fun invoice => invoice.id == idv)).map invoiceFormOfRow) := by
  show Except.ok ((st.invoices.filter (fun invoice => invoice.id == idv)).map
      invoiceFormOfRow).head? = _
  rw [show ∀ l : List Invoice, (l.map invoiceFormOfRow).head? = l.head?.map invoiceFormOfRow
      from fun l => by cases l <;> rfl,
    head?_filter_eq_find?]

/-- C3 counterexample: on a backend whose `revenue` relation has no rows and
whose query succeeds, `fetchRevenue` returns `Except.ok []` — a success, not
the `Except.error` the claim ("fails ... whenever the backing query returns
no rows") requires: an empty result array is truthy in JavaScript, so the
`if (!data)` guard does not fire. -/
theorem fetchRevenue_empty_rows_ok :
    fetchRevenue { invoices := [], customers := [], revenue := [] } .ok = .ok [] := rfl

/-- C3 (amended): `fetchRevenue` fails with its generic message when the
backing query errors or when the client reports an absent (`null`) data set;
a query that succeeds returns the rows unchanged (so zero rows give `[]`,
not an error), and the error value never depends on the underlying cause. -/
theorem fetchRevenue_failure_contract (st : Store) (m : String) :
    fetchRevenue st (.err m) = .error "Failed to fetch revenue data."
    ∧ fetchRevenue st .nullData = .error "Failed to fetch revenue data."
    ∧ fetchRevenue st .ok = .ok st.revenue :=
  ⟨rfl, rfl, rfl⟩

/-- C4: when no query errors, `fetchCardData` returns the invoice count over
all statuses, the customer count, and the currency-formatted paid/pending
sums; paid + pending equals (hence never exceeds) the amount total over
invoices with status in `{paid, pending}`; absent data defaults everything to
zero; and the worked example from the spec evaluates as stated. -/
theorem fetchCardData_summary_correct (st : Store) :
    fetchCardData st .ok .ok .ok = .ok
      { numberOfCustomers := st.customers.length
        numberOfInvoices := st.invoices.length
        totalPaidInvoices := formatCurrency (statusSum st.invoices "paid")
        totalPendingInvoices := formatCurrency (statusSum st.invoices "pending") }
    ∧ statusSum st.invoices "paid" + statusSum st.invoices "pending"
        ≤ (st.invoices.filter (fun i => i.status == "paid" || i.status == "pending")).foldl
            (fun sum curr => sum + curr.amount) 0
    ∧ fetchCardData st .nullData .nullData .nullData
        = .ok { numberOfCustomers := 0, numberOfInvoices := 0,
                totalPaidInvoices := formatCurrency 0,
                totalPendingInvoices := formatCurrency 0 }
    ∧ fetchCardData
        { invoices :=
            [{ id := "i1", customer_id := "c1", amount := 100000, status := "paid",
               date := "2024-01-01" },
             { id := "i2", customer_id := "c2", amount := 50000, status := "pending",
               date := "2024-01-02" }],
          customers :=
            [{ id := "c1", name := "Ann", email := "ann@mail.io", image_url := "a.png" },
             { id := "c2", name := "Bob", email := "bob@mail.io", image_url := "b.png" }],
          revenue := [] } .ok .ok .ok
        = .ok { numberOfCustomers := 2, numberOfInvoices := 2,
                totalPaidInvoices := "$1,000.00", totalPendingInvoices := "$500.00" } :=
  ⟨rfl, le_of_eq (statusSum_paid_add_pending st.invoices), rfl, rfl⟩

/-- C10: when none of the three card queries errors but any subset of them
reports an absent (`null`) data set, `fetchCardData` still succeeds: counts
default to `0` for absent sets and the two totals become the currency
formatting of `0` whenever the invoice data set is absent. -/
theorem fetchCardData_null_defaults (st : Store) (b1 b2 b3 : Bool) :
    fetchCardData st (if b1 then .ok else .nullData) (if b2 then .ok else .nullData)
        (if b3 then .ok else .nullData)
      = .ok { numberOfCustomers := if b2 then st.customers.length else 0
              numberOfInvoices := if b1 then st.invoices.length else 0
              totalPaidInvoices := formatCurrency (if b1 then statusSum st.invoices "paid" else 0)
              totalPendingInvoices :=
                formatCurrency (if b1 then statusSum st.invoices "pending" else 0) } := by
  cases b1 <;> cases b2 <;> cases b3 <;> rfl

/-- C9: in the trace of `fetchCardData`, the first query's round trip
completes strictly before the second query is issued, and the second
completes before the third is issued — the function awaits each query before
initiating the next, contradicting the claim (and the source's own comment)
that the three queries are initiated without waiting for each other. -/
theorem fetchCardData_sequential_await :
    fetchCardDataTrace.indexOf (QueryEv.complete 1) < fetchCardDataTrace.indexOf (QueryEv.issue 2)
    ∧ fetchCardDataTrace.indexOf (QueryEv.complete 2)
        < fetchCardDataTrace.indexOf (QueryEv.issue 3) := by
  constructor <;> decide

/-- C7: with an empty query string no filter is applied — the result is
exactly the spec-side "unfiltered fetch ordered by date descending, sliced to
the requested page" of 6 rows at offset `(page-1)*6`. -/
theorem fetchFilteredInvoices_empty_query_refines (st : Store) (currentPage : Nat)
    (h : 1 ≤ currentPage) :
    fetchFilteredInvoices st "" currentPage .ok
      = .ok (some (unfilteredInvoicePage st currentPage)) := rfl

/-- Witness for the empty-query refinement at a concrete store and page 1. -/
theorem fetchFilteredInvoices_empty_query_refines_witness :
    1 ≤ 1
    ∧ fetchFilteredInvoices
        { invoices := [{ id := "i1", customer_id := "c1", amount := 7, status := "paid",
                         date := "2024-01-01" }],
          customers := [], revenue := [] } "" 1 .ok
      = .ok (some (unfilteredInvoicePage
          { invoices := [{ id := "i1", customer_id := "c1", amount := 7, status := "paid",
                           date := "2024-01-01" }],
            customers := [], revenue := [] } 1)) :=
  ⟨Nat.le_refl 1, fetchFilteredInvoices_empty_query_refines _ 1 (Nat.le_refl 1)⟩

/-- C6: `fetchInvoicesPages` returns `⌈matching rows / 6⌉`: the returned page
count `n` covers all matching rows (`count ≤ 6n`), is tight (`6n < count+6`),
and is `0` exactly when no row matches. -/
theorem fetchInvoicesPages_ceil (st : Store) (query : String) :
    ∃ n, fetchInvoicesPages st query none = .ok n
      ∧ (n : ℤ) = ⌈(matchingRowCount st query : ℚ) / 6⌉
      ∧ matchingRowCount st query ≤ 6 * n
      ∧ 6 * n < matchingRowCount st query + 6
      ∧ (matchingRowCount st query = 0 → n = 0) := by
  refine ⟨(matchingRowCount st query + 5) / 6, ?_, ?_, by omega, by omega, by omega⟩
  · show Except.ok (⌈(matchingRowCount st query : ℚ) / (ITEMS_PER_PAGE : ℚ)⌉.toNat) = _
    rw [show ((ITEMS_PER_PAGE : ℚ)) = 6 from rfl, ceil_div_six, Int.toNat_natCast]
  · rw [ceil_div_six]

/-- Witness for the page-count property: one matching row gives one page, an
empty store gives zero pages. -/
theorem fetchInvoicesPages_ceil_witness :
    fetchInvoicesPages
        { invoices := [{ id := "i1", customer_id := "c1", amount := 100, status := "paid",
                         date := "2024-01-01" }],
          customers := [{ id := "c1", name := "Ann", email := "ann@mail.io",
                          image_url := "a.png" }],
          revenue := [] } "" none = .ok 1
    ∧ fetchInvoicesPages { invoices := [], customers := [], revenue := [] } "" none = .ok 0 := by
  constructor
  · obtain ⟨n, h1, _, h3, h4, _⟩ := fetchInvoicesPages_ceil
      { invoices := [{ id := "i1", customer_id := "c1", amount := 100, status := "paid",
                       date := "2024-01-01" }],
        customers := [{ id := "c1", name := "Ann", email := "ann@mail.io",
                        image_url := "a.png" }],
        revenue := [] } ""
    have hc : matchingRowCount
        { invoices := [{ id := "i1", customer_id := "c1", amount := 100, status := "paid",
                         date := "2024-01-01" }],
          customers := [{ id := "c1", name := "Ann", email := "ann@mail.io",
                          image_url := "a.png" }],
          revenue := [] } "" = 1 := rfl
    rw [hc] at h3 h4
    have hn : n = 1 := by omega
    rwa [hn] at h1
  · obtain ⟨n, h1, _, _, _, h5⟩ :=
      fetchInvoicesPages_ceil { invoices := [], customers := [], revenue := [] } ""
    have hn : n = 0 := h5 rfl
    rwa [hn] at h1

/-- C2: every query function catches each failure at its own boundary and
rethrows its fixed generic "Failed to fetch ..." message; since the resulting
value is a constant independent of the cause `m`, the original cause is never
observable by the caller.  The second latest-invoices query only runs when
the first returned rows, hence the non-emptiness hypothesis on that conjunct. -/
theorem generic_error_boundary (st : Store) (m query idv : String) (page : Nat)
    (o2 o3 : Outcome) (hne : (sortByDateDesc st.invoices).take 5 ≠ []) :
    fetchRevenue st (.err m) = .error "Failed to fetch revenue data."
    ∧ fetchLatestInvoices st (.err m) o2 = .error "Failed to fetch the latest invoices."
    ∧ fetchLatestInvoices st .ok (.err m) = .error "Failed to fetch the latest invoices."
    ∧ fetchCardData st (.err m) o2 o3 = .error "Failed to fetch card data."
    ∧ fetchCardData st .ok (.err m) o3 = .error "Failed to fetch card data."
    ∧ fetchCardData st .ok .ok (.err m) = .error "Failed to fetch card data."
    ∧ fetchFilteredInvoices st query page (.err m) = .error "Failed to fetch invoices."
    ∧ fetchInvoicesPages st query (some m) = .error "Failed to fetch total number of invoices."
    ∧ fetchInvoiceById st idv (some m) = .error "Failed to fetch invoice."
    ∧ fetchCustomers st (some m) = .error "Failed to fetch all customers."
    ∧ fetchFilteredCustomers st query (some m) = .error "Failed to fetch customer table." := by
  refine ⟨rfl, rfl, ?_, rfl, rfl, rfl, rfl, rfl, rfl, rfl, rfl⟩
  rcases hr : (sortByDateDesc st.invoices).take 5 with _ | ⟨a, as⟩
  · exact absurd hr hne
  · simp [fetchLatestInvoices, respond, hr]

/-- Store with a single paid invoice, used to exercise the data-bearing paths. -/
def oneInvoiceStore : Store :=
  { invoices := [{ id := "i1", customer_id := "c1", amount := 100, status := "paid",
                   date := "2024-01-01" }],
    customers := [], revenue := [] }

/-- Witness for the failure contract: the data-bearing latest-invoices path
also collapses a second-query failure to the generic message. -/
theorem generic_error_boundary_witness :
    (sortByDateDesc oneInvoiceStore.invoices).take 5 ≠ []
    ∧ fetchLatestInvoices oneInvoiceStore .ok (.err "connection reset")
      = .error "Failed to fetch the latest invoices." :=
  ⟨by decide,
   (generic_error_boundary oneInvoiceStore "connection reset" "" "" 1 .ok .ok
      (by decide)).2.2.1⟩

/-- C5: `fetchInvoiceById` returns the first stored invoice with the given id
as a `{id, customer_id, amount, status}` record whose amount is the stored
cents divided by 100 (a plain rational, no currency formatting), and returns
`none` — not an error — when no invoice has the id. -/
theorem fetchInvoiceById_converts_cents (st : Store) (idv : String) :
    fetchInvoiceById st idv none
        = .ok ((st.invoices.find? (fun invoice => invoice.id == idv)).map invoiceFormOfRow)
    ∧ (∀ invoice, st.invoices.find? (fun i => i.id == idv) = some invoice →
        fetchInvoiceById st idv none = .ok (some (invoiceFormOfRow invoice))
          ∧ (invoiceFormOfRow invoice).amount = (invoice.amount : ℚ) / 100)
    ∧ (st.invoices.find? (fun i => i.id == idv) = none →
        fetchInvoiceById st idv none = .ok none) := by
  refine ⟨fetchInvoiceById_eq_find st idv, ?_, ?_⟩
  · intro invoice hf
    exact ⟨by rw [fetchInvoiceById_eq_find, hf]; rfl, rfl⟩
  · intro hf
    rw [fetchInvoiceById_eq_find, hf]
    rfl

/-- Witness for invoice-by-id: a present id yields the divided amount, a
missing id yields `none`. -/
theorem fetchInvoiceById_converts_cents_witness :
    (fetchInvoiceById
        { invoices := [{ id := "i1", customer_id := "c1", amount := 1050, status := "pending",
                         date := "2024-02-03" }],
          customers := [], revenue := [] } "i1" none
      = .ok (some (invoiceFormOfRow
          { id := "i1", customer_id := "c1", amount := 1050, status := "pending",
            date := "2024-02-03" }))
      ∧ (invoiceFormOfRow
          { id := "i1", customer_id := "c1", amount := 1050, status := "pending",
            date := "2024-02-03" }).amount = ((1050 : Int) : ℚ) / 100)
    ∧ fetchInvoiceById
        { invoices := [{ id := "i1", customer_id := "c1", amount := 1050, status := "pending",
                         date := "2024-02-03" }],
          customers := [], revenue := [] } "missing" none = .ok none :=
  ⟨(fetchInvoiceById_converts_cents
      { invoices := [{ id := "i1", customer_id := "c1", amount := 1050, status := "pending",
                       date := "2024-02-03" }],
        customers := [], revenue := [] } "i1").2.1 _ rfl,
   (fetchInvoiceById_converts_cents
      { invoices := [{ id := "i1", customer_id := "c1", amount := 1050, status := "pending",
                       date := "2024-02-03" }],
        customers := [], revenue := [] } "missing").2.2 rfl⟩

/-- Store with one invoice whose customer id matches no customer row. -/
def ghostStore : Store :=
  { invoices := [{ id := "i9", customer_id := "ghost", amount := 100000, status := "paid",
                   date := "2024-05-05" }],
    customers := [], revenue := [] }

/-- Latest-invoices row produced for the dangling `ghost` reference. -/
def ghostRow : LatestInvoice :=
  { id := "i9", amount := "$1,000.00", name := none, email := none, image_url := none }

/-- C8: `fetchLatestInvoices` returns `[]`, not an error, when no invoices
exist (whatever would have happened to the never-issued second query); every
returned row either carries the joined customer's fields or has all three of
name/email/image absent; and a dangling customer reference concretely yields
a row with `none` fields rather than an error. -/
theorem latestInvoices_resilience :
    (∀ (cs : List Customer) (rv : List RevenueRow) (o2 : Outcome),
        fetchLatestInvoices { invoices := [], customers := cs, revenue := rv } .ok o2 = .ok [])
    ∧ (∀ (st : Store) (l : List LatestInvoice), fetchLatestInvoices st .ok .ok = .ok l →
        ∀ r ∈ l, (r.name = none ∧ r.email = none ∧ r.image_url = none)
          ∨ ∃ c ∈ st.customers, r.name = some c.name ∧ r.email = some c.email
              ∧ r.image_url = some c.image_url)
    ∧ fetchLatestInvoices ghostStore .ok .ok = .ok [ghostRow] := by
  refine ⟨fun cs rv o2 => rfl, ?_, rfl⟩
  intro st l h r hr
  simp only [fetchLatestInvoices, respond] at h
  rcases hrows : (sortByDateDesc st.invoices).take 5 with _ | ⟨a, as⟩
  · rw [hrows] at h
    rw [if_pos (by rfl)] at h
    injection h with h
    subst h
    exact absurd hr (List.not_mem_nil r)
  · rw [hrows] at h
    rw [if_neg (by simp)] at h
    injection h with h
    subst h
    obtain ⟨inv, hinv, rfl⟩ := List.mem_map.1 hr
    rcases hc : (st.customers.filter
        (fun c => ((a :: as).map Invoice.customer_id).contains c.id)).find?
          (fun c => c.id == inv.customer_id) with _ | c
    · left
      simp only [latestInvoiceOfRow, hc, Option.map_none', and_self]
    · right
      refine ⟨c, List.mem_of_mem_filter (List.mem_of_find?_eq_some hc), ?_⟩
      simp only [latestInvoiceOfRow, hc, Option.map_some', and_self]

/-- Witness for latest-invoices resilience at the dangling-reference store. -/
theorem latestInvoices_resilience_witness :
    (ghostRow.name = none ∧ ghostRow.email = none ∧ ghostRow.image_url = none)
    ∨ ∃ c ∈ ghostStore.customers, ghostRow.name = some c.name ∧ ghostRow.email = some c.email
        ∧ ghostRow.image_url = some c.image_url :=
  latestInvoices_resilience.2.1 ghostStore [ghostRow] rfl ghostRow (by simp)

/-- Store holding one paid invoice of 100000 cents with an existing customer. -/
def rawStore : Store :=
  { invoices := [{ id := "i1", customer_id := "c1", amount := 100000, status := "paid",
                   date := "2024-01-01" }],
    customers := [{ id := "c1", name := "Ann", email := "ann@mail.io", image_url := "a.png" }],
    revenue := [] }

/-- The row `fetchFilteredInvoices` returns for `rawStore`: amount is the raw
stored cents. -/
def rawRow : FilteredInvoiceRow :=
  { id := "i1", amount := 100000, date := "2024-01-01", status := "paid",
    customers := some { name := "Ann", email := "ann@mail.io", image_url := "a.png" } }

/-- C1 counterexample: `fetchFilteredInvoices` is a query function of the
layer whose successful result contains the raw integer-cents amount `100000`
(`rawRow.amount`), neither divided by 100 nor formatted as a currency string —
so not every function's result is free of raw cents amounts. -/
theorem filteredInvoices_return_raw_cents :
    fetchFilteredInvoices rawStore "" 1 .ok = .ok (some [rawRow])
    ∧ rawRow.amount = 100000
    ∧ rawStore.invoices = [{ id := "i1", customer_id := "c1", amount := 100000,
                             status := "paid", date := "2024-01-01" }] :=
  ⟨rfl, rfl, rfl⟩

/-- C1 (amended): every monetary amount in the results of
`fetchLatestInvoices`, `fetchCardData`, `fetchInvoiceById` and
`fetchFilteredCustomers` is either a currency-formatted string or the stored
cents divided by 100 — but `fetchFilteredInvoices` returns the stored
integer-cents amount unmodified. -/
theorem amounts_never_raw_except_filtered (st : Store) (query idv : String) (page : Nat)
    (o1 o2 o3 : Outcome) :
    (∀ l, fetchLatestInvoices st o1 o2 = .ok l →
        ∀ r ∈ l, ∃ inv ∈ st.invoices, r.amount = formatCurrency inv.amount)
    ∧ (∀ c, fetchCardData st o1 o2 o3 = .ok c →
        (∃ n, c.totalPaidInvoices = formatCurrency n)
          ∧ ∃ n, c.totalPendingInvoices = formatCurrency n)
    ∧ (∀ r, fetchInvoiceById st idv none = .ok (some r) →
        ∃ inv ∈ st.invoices, r.amount = (inv.amount : ℚ) / 100)
    ∧ (∀ l, fetchFilteredCustomers st query none = .ok l →
        ∀ r ∈ l, (∃ n, r.total_pending = formatCurrency n)
          ∧ ∃ n, r.total_paid = formatCurrency n)
    ∧ (∀ l, fetchFilteredInvoices st query page o1 = .ok (some l) →
        ∀ r ∈ l, ∃ inv ∈ st.invoices, r.amount = inv.amount ∧ r.id = inv.id) := by
  refine ⟨?_, ?_, ?_, ?_, ?_⟩
  · intro l h r hr
    cases o1 with
    | err m => exact Except.noConfusion h
    | nullData =>
      injection h with h
      subst h
      exact absurd hr (List.not_mem_nil r)
    | ok =>
      simp only [fetchLatestInvoices, respond] at h
      rcases hrows : (sortByDateDesc st.invoices).take 5 with _ | ⟨a, as⟩
      · rw [hrows] at h
        rw [if_pos (by rfl)] at h
        injection h with h
        subst h
        exact absurd hr (List.not_mem_nil r)
      · rw [hrows] at h
        rw [if_neg (by simp)] at h
        cases o2 with
        | err m => exact Except.noConfusion h
        | nullData => exact Except.noConfusion h
        | ok =>
          injection h with h
          subst h
          obtain ⟨inv, hinv, rfl⟩ := List.mem_map.1 hr
          rw [← hrows] at hinv
          exact ⟨inv, mem_sortByDateDesc.1 (List.mem_of_mem_take hinv), rfl⟩
  · cases o1 <;> cases o2 <;> cases o3 <;> intro c h <;>
      first
        | exact Except.noConfusion h
        | (injection h with h; subst h; exact ⟨⟨0, rfl⟩, 0, rfl⟩)
        | (injection h with h; subst h;
           exact ⟨⟨statusSum st.invoices "paid", rfl⟩, statusSum st.invoices "pending", rfl⟩)
  · intro r h
    rw [fetchInvoiceById_eq_find] at h
    injection h with h
    rcases hfind : st.invoices.find? (fun invoice => invoice.id == idv) with _ | inv
    · rw [hfind] at h
      exact Option.noConfusion h
    · rw [hfind] at h
      injection h with h
      subst h
      exact ⟨inv, List.mem_of_find?_eq_some hfind, rfl⟩
  · intro l h r hr
    injection h with h
    subst h
    obtain ⟨c, _, rfl⟩ := List.mem_map.1 hr
    exact ⟨⟨_, rfl⟩, _, rfl⟩
  · intro l h r hr
    cases o1 with
    | err m => exact Except.noConfusion h
    | nullData =>
      injection h with h
      exact Option.noConfusion h
    | ok =>
      simp only [fetchFilteredInvoices, respond, ITEMS_PER_PAGE] at h
      injection h with h
      injection h with h
      subst h
      have hbase : r ∈ (sortByDateDesc st.invoices).map (filteredInvoiceRow st) := by
        have hdrop := List.mem_of_mem_drop (List.mem_of_mem_take hr)
        split at hdrop
        · exact hdrop
        · exact List.mem_of_mem_filter hdrop
      obtain ⟨inv, hinv, rfl⟩ := List.mem_map.1 hbase
      exact ⟨inv, mem_sortByDateDesc.1 hinv, rfl, rfl⟩

/-- Witness for the amended amount invariant: at `rawStore`, the
filtered-invoices row for the stored invoice carries exactly the stored raw
amount, and invoice-by-id divides the stored cents by 100. -/
theorem amounts_never_raw_except_filtered_witness :
    (∃ inv ∈ rawStore.invoices, rawRow.amount = inv.amount ∧ rawRow.id = inv.id)
    ∧ ∃ inv ∈ rawStore.invoices,
        (invoiceFormOfRow { id := "i1", customer_id := "c1", amount := 100000,
                            status := "paid", date := "2024-01-01" }).amount
          = (inv.amount : ℚ) / 100 :=
  ⟨(amounts_never_raw_except_filtered rawStore "" "i1" 1 .ok .ok .ok).2.2.2.2
      [rawRow] rfl rawRow (by simp),
   (amounts_never_raw_except_filtered rawStore "" "i1" 1 .ok .ok .ok).2.2.1 _ rfl⟩
